import Mathlib

/- Verification of the TERALARM firmware against its specification.

   The definitions below are a shallow embedding of the C++ sources:
   - `chTimeStep`, `chMinsSecsStep`, `chDateStep`, `chArrayStep`,
     `chChallengeStep` embed the settings-editor functions of
     setInterface.cpp (one call of the input `switch` on `getPressed()`);
   - `runEditor` embeds the enclosing `while (true)` loop driven by a
     finite list of button codes;
   - `challengeStep` / `challengeRun` embed the answer-handling loop of
     `soundAlarm` in clockAlarmInterface.cpp;
   - `getPressedStep` / `getPressedRun` embed the debounced button
     sampler `getPressed` of backgroundTasks.cpp;
   - `brightCurve` embeds the reciprocal brightness curve (real
     arithmetic modelled over ℚ, the final byte conversion as `Int.toNat`
     of the floor, which is truncation for the positive values produced);
   - `LCDBuf.setCursor` / `LCDBuf.printStr` embed BufferedLCD.cpp;
   - the `SysState` flows embed the commit/cancel structure of the main
     `loop` in teralarm.ino.

   Button codes follow the source: 0 = none, 1 = confirm, 2 = cancel,
   3 = up, 4 = down. -/

/-! ## Field editors (setInterface.cpp) -/

/-- Result of one editor iteration: `none` keeps looping, `some true`
is the `return true` (save) exit, `some false` the `return false`
(discard) exit. -/
abbrev EdOut := Option Bool

/-- State of `chTime`: the two edited values and the `set` flag
(`true` while the hours field is selected, `false` for minutes). -/
structure TimeEd where
  hrs : Nat
  mins : Nat
  set : Bool
  deriving Repr, DecidableEq

/-- One iteration of the `switch (getPressed())` body of `chTime`. -/
def chTimeStep (e : TimeEd) (b : Nat) : TimeEd × EdOut :=
  if b = 1 then
    if ¬e.set then (e, some true)
    else ({ e with set := false }, none)
  else if b = 2 then (e, some false)
  else if b = 3 then
    (if e.set then { e with hrs := (e.hrs + 1) % 24 }
     else { e with mins := (e.mins + 1) % 60 }, none)
  else if b = 4 then
    (if e.set then { e with hrs := (e.hrs + 23) % 24 }
     else { e with mins := (e.mins + 59) % 60 }, none)
  else (e, none)

/-- State of `chMinsSecs`: minutes, seconds and the `set` flag
(`true` while minutes are selected). -/
structure MinsSecsEd where
  mins : Nat
  secs : Nat
  set : Bool
  deriving Repr, DecidableEq

/-- One iteration of the `switch (getPressed())` body of `chMinsSecs`. -/
def chMinsSecsStep (e : MinsSecsEd) (b : Nat) : MinsSecsEd × EdOut :=
  if b = 1 then
    if ¬e.set then (e, some true)
    else ({ e with set := false }, none)
  else if b = 2 then (e, some false)
  else if b = 3 then
    (if e.set then { e with mins := (e.mins + 1) % 60 }
     else { e with secs := (e.secs + 1) % 60 }, none)
  else if b = 4 then
    (if e.set then { e with mins := (e.mins + 59) % 60 }
     else { e with secs := (e.secs + 59) % 60 }, none)
  else (e, none)

/-- State of `chDate`: day, month, year and the selected-field index
`set` (0 = day, 1 = month, 2 = year). -/
structure DateEd where
  day : Nat
  month : Nat
  year : Nat
  set : Nat
  deriving Repr, DecidableEq

/-- One iteration of the `switch (getPressed())` body of `chDate`. -/
def chDateStep (e : DateEd) (b : Nat) : DateEd × EdOut :=
  if b = 1 then
    if e.set = 2 then (e, some true)
    else ({ e with set := e.set + 1 }, none)
  else if b = 2 then (e, some false)
  else if b = 3 then
    (if e.set = 0 then { e with day := e.day % 31 + 1 }
     else if e.set = 1 then { e with month := e.month % 12 + 1 }
     else if e.year < 9999 then { e with year := e.year + 1 }
     else e, none)
  else if b = 4 then
    (if e.set = 0 then { e with day := (e.day + 29) % 31 + 1 }
     else if e.set = 1 then { e with month := (e.month + 10) % 12 + 1 }
     else if e.year > 1000 then { e with year := e.year - 1 }
     else e, none)
  else (e, none)

/-- One iteration of the `switch (getPressed())` body of `chArray`
editing the 1-indexed array index `i` with wrap bound `bound`. -/
def chArrayStep (bound : Nat) (i : Nat) (b : Nat) : Nat × EdOut :=
  if b = 1 then (i, some true)
  else if b = 2 then (i, some false)
  else if b = 3 then (i % bound + 1, none)
  else if b = 4 then ((i + bound - 2) % bound + 1, none)
  else (i, none)

/-- One iteration of the `switch (getPressed())` body of `chChallenge`
editing the challenge counter `n`. -/
def chChallengeStep (n : Nat) (b : Nat) : Nat × EdOut :=
  if b = 1 then (n, some true)
  else if b = 2 then (n, some false)
  else if b = 3 then ((n + 1) % 100, none)
  else if b = 4 then ((n + 99) % 100, none)
  else (n, none)

/-- The enclosing `while (true)` loop of every editor, driven by a list
of button codes: the loop ends at the first iteration whose body
returns, yielding the final edited state and the returned Bool. -/
def runEditor {σ : Type} (step : σ → Nat → σ × EdOut) :
    σ → List Nat → σ × EdOut
  | s, [] => (s, none)
  | s, b :: bs =>
    match step s b with
    | (s', none) => runEditor step s' bs
    | (s', some r) => (s', some r)

/-! ## Alarm challenge loop (soundAlarm, clockAlarmInterface.cpp) -/

/-- State of the challenge loop of `soundAlarm`: the score `points`,
the displayed target `num`, and whether the `do … while` loop has
exited (`done`). -/
structure AlarmSt where
  points : Nat
  num : Nat
  done : Bool
  deriving Repr, DecidableEq

/-- Entry into the challenge loop: zero points and a first target drawn
by `random(1, 5)`, i.e. `1 + r % 4` for the raw generator draw `r`. -/
def challengeInit (r0 : Nat) : AlarmSt :=
  ⟨0, 1 + r0 % 4, false⟩

/-- One button event of the challenge loop of `soundAlarm` with
challenge value `chal`: `pressed = 0` is skipped (`continue`); with the
challenge set to none any press exits; a correct answer increments the
byte score (`% 256` models the byte) and exits when the `do … while`
condition `points < alarmChallenge` fails, otherwise a fresh target is
drawn from `rand`; a wrong answer decrements the score unless it is
already zero and keeps the same target. -/
def challengeStep (chal : Nat) (s : AlarmSt) (pressed rand : Nat) : AlarmSt :=
  if s.done then s
  else if pressed = 0 then s
  else if chal = 0 then ⟨s.points, s.num, true⟩
  else if pressed = s.num then
    if chal ≤ (s.points + 1) % 256 then ⟨(s.points + 1) % 256, s.num, true⟩
    else ⟨(s.points + 1) % 256, 1 + rand % 4, false⟩
  else ⟨if s.points ≠ 0 then s.points - 1 else s.points, s.num, false⟩

/-- The challenge loop over a list of (button, generator draw) events. -/
def challengeRun (chal : Nat) (r0 : Nat) (evs : List (Nat × Nat)) : AlarmSt :=
  evs.foldl (fun s e => challengeStep chal s e.1 e.2) (challengeInit r0)

/-! ## Button sampler (getPressed, backgroundTasks.cpp) -/

/-- The `if (digitalRead(...) == LOW)` cascade of `getPressed`
identifying the currently pressed button with priority
confirm > cancel > up > down (`true` = line LOW = pressed). -/
def readButtons (b1 b2 b3 b4 : Bool) : Nat :=
  if b1 then 1 else if b2 then 2 else if b3 then 3 else if b4 then 4 else 0

/-- The static state of `getPressed`: the latch `lastPressed` (the
button whose press was last reported, 0 after a registered release)
and `pressTimer` (the `millis()` timestamp of the last reported press
or registered release). -/
structure PressSt where
  lastPressed : Nat
  pressTimer : Nat
  deriving Repr, DecidableEq

/-- Initial sampler state (`lastPressed = 0`, `pressTimer = 0`). -/
def pressInit : PressSt := ⟨0, 0⟩

/-- One call of `getPressed` at time `t` observing `cur` (the value of
`readButtons`): report `cur` if a button is down, the latch is clear
and 100 ms have passed since `pressTimer`; register a release if no
button is down, the latch is set and 100 ms have passed since
`pressTimer`; otherwise return 0 and leave the state alone. -/
def getPressedStep (s : PressSt) (t cur : Nat) : PressSt × Nat :=
  if 0 < cur ∧ s.lastPressed = 0 ∧ 100 ≤ t - s.pressTimer then
    (⟨cur, t⟩, cur)
  else if cur = 0 ∧ 0 < s.lastPressed ∧ 100 ≤ t - s.pressTimer then
    (⟨0, t⟩, 0)
  else (s, 0)

/-- A sequence of `getPressed` calls, each a (time, observed line)
pair, returning the final state and the list of returned values. -/
def getPressedRun : PressSt → List (Nat × Nat) → PressSt × List Nat
  | s, [] => (s, [])
  | s, (t, c) :: rest =>
    let r := getPressedStep s t c
    let rest' := getPressedRun r.1 rest
    (rest'.1, r.2 :: rest'.2)

/-! ## Brightness setting operations -/

/-- Brightness increment, `brightness = (brightness + 1) % 18`
(button 3 in `updateBrightness` and in the main `loop`). -/
def brightInc (b : Nat) : Nat := (b + 1) % 18

/-- Brightness decrement, `brightness = (brightness + 17) % 18`
(button 4 in `updateBrightness` and in the main `loop`). -/
def brightDec (b : Nat) : Nat := (b + 17) % 18

/-- Load of the persisted brightness byte at boot:
`EEPROM.read(6) >= 0 && EEPROM.read(6) <= 17 ? EEPROM.read(6) : 0`. -/
def brightLoad (v : Nat) : Nat := if v ≤ 17 then v else 0

/-- The backlight override on alarm / snooze-alert entry:
`if (brightness == 0) {brightness = 255;}`. -/
def brightOverrideEntry (b : Nat) : Nat := if b = 0 then 255 else b

/-- The backlight restore on alarm / snooze-alert exit:
`if (brightness == 255) {brightness = 0;}` (else branch only reads). -/
def brightOverrideExit (b : Nat) : Nat := if b = 255 then 0 else b

/-! ## Brightness curve (brightCurve, backgroundTasks.cpp) -/

/-- `brightCurve`: the reciprocal brightness equation. Real arithmetic
is modelled over ℚ and the C++ float-to-byte conversion of the
(positive) result as the floor. -/
def brightCurve (sensor : Int) : Nat :=
  if 729 ≤ sensor then 255
  else if sensor ≤ 110 then 1
  else (⌊(100 : ℚ) / (4 - 0.005 * (sensor : ℚ)) - 28⌋).toNat

/-! ## Buffered display sink (BufferedLCD.cpp) -/

/-- State of a `BufferedLCD`: grid size, the `cols * rows` character
buffer, the buffer index `cursor`, and the hardware cursor as last set
through the base class. -/
structure LCDBuf where
  maxX : Nat
  maxY : Nat
  buffer : List Char
  cursor : Nat
  hwCol : Nat
  hwRow : Nat
  deriving Repr, DecidableEq

/-- `BufferedLCD::setCursor`: move the hardware cursor and the buffer
index only when the coordinates are inside the grid. -/
def LCDBuf.setCursor (l : LCDBuf) (x y : Nat) : LCDBuf :=
  if x < l.maxX ∧ y < l.maxY then
    { l with hwCol := x, hwRow := y, cursor := y * l.maxX + x }
  else l

/-- `BufferedLCD::print`: write `s` at the buffer cursor and invoke the
hardware print (the returned Bool) only when the string fits inside
the buffer and differs from the buffer contents at that position
(`memcmp` nonzero). -/
def LCDBuf.printStr (l : LCDBuf) (s : List Char) : LCDBuf × Bool :=
  if l.cursor + s.length ≤ l.maxX * l.maxY ∧
      ¬((l.buffer.drop l.cursor).take s.length = s) then
    ({ l with buffer :=
        l.buffer.take l.cursor ++ s ++ l.buffer.drop (l.cursor + s.length) },
      true)
  else (l, false)

/-! ## Settings persistence flows (loop, teralarm.ino) -/

/-- The six EEPROM cells written by the main loop (addresses 0–5:
alarm hours, alarm minutes, challenge, snooze minutes, snooze seconds,
alarm state). -/
structure EEPROMState where
  e0 : Nat
  e1 : Nat
  e2 : Nat
  e3 : Nat
  e4 : Nat
  e5 : Nat
  deriving Repr, DecidableEq

/-- The RTC fields read and written by the main loop. -/
structure RTCState where
  hour : Nat
  min : Nat
  sec : Nat
  date : Nat
  mon : Nat
  year : Nat
  dow : Nat
  deriving Repr, DecidableEq

/-- The persisted state owned by the caller of the editors: the RAM
globals synchronised with EEPROM, the EEPROM cells, and the RTC. -/
structure SysState where
  alarmHrs : Nat
  alarmMins : Nat
  alarmChallenge : Nat
  alarmSnoozeMins : Nat
  alarmSnoozeSecs : Nat
  alarmState : Bool
  eeprom : EEPROMState
  rtc : RTCState
  deriving Repr, DecidableEq

/-- One editing session as run by the main loop: open the editor on
the working copy `init g`, drive it with the button list, and commit
to persisted state only when the editor returned `true`; the returned
Bool is the editor's verdict. -/
def edSegment {σ : Type} (step : σ → Nat → σ × EdOut) (init : SysState → σ)
    (commit : SysState → σ → SysState) (g : SysState) (bs : List Nat) :
    SysState × Bool :=
  let r := runEditor step (init g) bs
  if r.2 = some true then (commit g r.1, true) else (g, false)

/-- Commit of a confirmed SET TIME session: `rtc.setTime(h, m, 0)`. -/
def commitTime (g : SysState) (e : TimeEd) : SysState :=
  { g with rtc := { g.rtc with hour := e.hrs, min := e.mins, sec := 0 } }

/-- Commit of a confirmed SET DATE session: `rtc.setDate(d, mo, y)`. -/
def commitDate (g : SysState) (e : DateEd) : SysState :=
  { g with rtc := { g.rtc with date := e.day, mon := e.month, year := e.year } }

/-- Commit of a confirmed SET WEEKDAY session: `rtc.setDOW(dow)`. -/
def commitDow (g : SysState) (w : Nat) : SysState :=
  { g with rtc := { g.rtc with dow := w } }

/-- Commit of a confirmed SET ALARM session: globals and EEPROM 0/1. -/
def commitAlarmTime (g : SysState) (e : TimeEd) : SysState :=
  { g with alarmHrs := e.hrs, alarmMins := e.mins,
           eeprom := { g.eeprom with e0 := e.hrs, e1 := e.mins } }

/-- Commit of a confirmed SET CHALLENGE session: global and EEPROM 2. -/
def commitChallenge (g : SysState) (n : Nat) : SysState :=
  { g with alarmChallenge := n, eeprom := { g.eeprom with e2 := n } }

/-- Commit of a confirmed SET SNOOZE session: globals and EEPROM 3/4. -/
def commitSnooze (g : SysState) (e : MinsSecsEd) : SysState :=
  { g with alarmSnoozeMins := e.mins, alarmSnoozeSecs := e.secs,
           eeprom := { g.eeprom with e3 := e.mins, e4 := e.secs } }

/-- Commit of a confirmed SET STATE session: global and EEPROM 5. -/
def commitState (g : SysState) (st : Nat) : SysState :=
  { g with alarmState := st = 2,
           eeprom := { g.eeprom with e5 := if st = 2 then 1 else 0 } }

/-- The SET TIME session of the main loop (button 1 flow). -/
def timeSeg (g : SysState) (bs : List Nat) : SysState × Bool :=
  edSegment chTimeStep (fun g => ⟨g.rtc.hour, g.rtc.min, true⟩) commitTime g bs

/-- The SET DATE session of the main loop (button 1 flow). -/
def dateSeg (g : SysState) (bs : List Nat) : SysState × Bool :=
  edSegment chDateStep (fun g => ⟨g.rtc.date, g.rtc.mon, g.rtc.year, 0⟩)
    commitDate g bs

/-- The SET WEEKDAY session of the main loop (button 1 flow). -/
def dowSeg (g : SysState) (bs : List Nat) : SysState × Bool :=
  edSegment (chArrayStep 7) (fun g => g.rtc.dow) commitDow g bs

/-- The SET ALARM session of the main loop (button 2 flow). -/
def alarmTimeSeg (g : SysState) (bs : List Nat) : SysState × Bool :=
  edSegment chTimeStep (fun g => ⟨g.alarmHrs, g.alarmMins, true⟩)
    commitAlarmTime g bs

/-- The SET CHALLENGE session of the main loop (button 2 flow). -/
def challengeSeg (g : SysState) (bs : List Nat) : SysState × Bool :=
  edSegment chChallengeStep (fun g => g.alarmChallenge) commitChallenge g bs

/-- The SET SNOOZE session of the main loop (button 2 flow). -/
def snoozeSeg (g : SysState) (bs : List Nat) : SysState × Bool :=
  edSegment chMinsSecsStep (fun g => ⟨g.alarmSnoozeMins, g.alarmSnoozeSecs, true⟩)
    commitSnooze g bs

/-- The SET STATE session of the main loop (button 2 flow). -/
def stateSeg (g : SysState) (bs : List Nat) : SysState × Bool :=
  edSegment (chArrayStep 2) (fun g => if g.alarmState then 2 else 1)
    commitState g bs

/-- The button 2 flow of the main loop: alarm time, then challenge,
then snooze, then state; a cancelled session `return`s, skipping the
remaining sessions. -/
def alarmFlow (g : SysState) (bs1 bs2 bs3 bs4 : List Nat) : SysState :=
  let r1 := alarmTimeSeg g bs1
  if r1.2 then
    let r2 := challengeSeg r1.1 bs2
    if r2.2 then
      let r3 := snoozeSeg r2.1 bs3
      if r3.2 then (stateSeg r3.1 bs4).1
      else r3.1
    else r2.1
  else r1.1

/-- The button 1 flow of the main loop: time, then date, then weekday;
a cancelled session `return`s, skipping the remaining sessions. -/
def timeDateFlow (g : SysState) (bs1 bs2 bs3 : List Nat) : SysState :=
  let r1 := timeSeg g bs1
  if r1.2 then
    let r2 := dateSeg r1.1 bs2
    if r2.2 then (dowSeg r2.1 bs3).1
    else r2.1
  else r1.1

/-! ## Theorems: field editors -/

/-- C1: For every editor field and every in-range starting value, a
single Up press or Down press applies exactly the specified wrap/clamp
rule to that field's value: hours wrap modulo 24 in both directions
(incrementing 23 gives 0, decrementing 0 gives 23); minutes and
seconds wrap modulo 60; days wrap over 1–31 in both directions
regardless of month; months wrap over 1–12; the year saturates at its
bounds 1000 and 9999; the challenge counter wraps over 0–99; and the
enumerated index wraps over 1..bound. -/
theorem editor_wrap_rules :
    (∀ e : TimeEd, e.set = true → e.hrs < 24 →
      (chTimeStep e 3).1.hrs = (e.hrs + 1) % 24 ∧
      (chTimeStep e 4).1.hrs = (if e.hrs = 0 then 23 else e.hrs - 1)) ∧
    (∀ e : TimeEd, e.set = false → e.mins < 60 →
      (chTimeStep e 3).1.mins = (e.mins + 1) % 60 ∧
      (chTimeStep e 4).1.mins = (if e.mins = 0 then 59 else e.mins - 1)) ∧
    (∀ e : MinsSecsEd, e.set = true → e.mins < 60 →
      (chMinsSecsStep e 3).1.mins = (e.mins + 1) % 60 ∧
      (chMinsSecsStep e 4).1.mins = (if e.mins = 0 then 59 else e.mins - 1)) ∧
    (∀ e : MinsSecsEd, e.set = false → e.secs < 60 →
      (chMinsSecsStep e 3).1.secs = (e.secs + 1) % 60 ∧
      (chMinsSecsStep e 4).1.secs = (if e.secs = 0 then 59 else e.secs - 1)) ∧
    (∀ e : DateEd, e.set = 0 → 1 ≤ e.day → e.day ≤ 31 →
      (chDateStep e 3).1.day = (if e.day = 31 then 1 else e.day + 1) ∧
      (chDateStep e 4).1.day = (if e.day = 1 then 31 else e.day - 1)) ∧
    (∀ e : DateEd, e.set = 1 → 1 ≤ e.month → e.month ≤ 12 →
      (chDateStep e 3).1.month = (if e.month = 12 then 1 else e.month + 1) ∧
      (chDateStep e 4).1.month = (if e.month = 1 then 12 else e.month - 1)) ∧
    (∀ e : DateEd, e.set = 2 → 1000 ≤ e.year → e.year ≤ 9999 →
      (chDateStep e 3).1.year = (if e.year = 9999 then e.year else e.year + 1) ∧
      (chDateStep e 4).1.year = (if e.year = 1000 then e.year else e.year - 1)) ∧
    (∀ n : Nat, n < 100 →
      (chChallengeStep n 3).1 = (n + 1) % 100 ∧
      (chChallengeStep n 4).1 = (if n = 0 then 99 else n - 1)) ∧
    (∀ bound i : Nat, 1 ≤ bound → 1 ≤ i → i ≤ bound →
      (chArrayStep bound i 3).1 = (if i = bound then 1 else i + 1) ∧
      (chArrayStep bound i 4).1 = (if i = 1 then bound else i - 1)) := by
  refine ⟨?_, ?_, ?_, ?_, ?_, ?_, ?_, ?_, ?_⟩
  · intro e hset hlt
    refine ⟨by simp [chTimeStep, hset], ?_⟩
    by_cases h0 : e.hrs = 0 <;> simp [chTimeStep, hset, h0] <;> omega
  · intro e hset hlt
    refine ⟨by simp [chTimeStep, hset], ?_⟩
    by_cases h0 : e.mins = 0 <;> simp [chTimeStep, hset, h0] <;> omega
  · intro e hset hlt
    refine ⟨by simp [chMinsSecsStep, hset], ?_⟩
    by_cases h0 : e.mins = 0 <;> simp [chMinsSecsStep, hset, h0] <;> omega
  · intro e hset hlt
    refine ⟨by simp [chMinsSecsStep, hset], ?_⟩
    by_cases h0 : e.secs = 0 <;> simp [chMinsSecsStep, hset, h0] <;> omega
  · intro e hset h1 h2
    constructor
    · by_cases h0 : e.day = 31 <;> simp [chDateStep, hset, h0] <;> omega
    · by_cases h0 : e.day = 1 <;> simp [chDateStep, hset, h0] <;> omega
  · intro e hset h1 h2
    constructor
    · by_cases h0 : e.month = 12 <;> simp [chDateStep, hset, h0] <;> omega
    · by_cases h0 : e.month = 1 <;> simp [chDateStep, hset, h0] <;> omega
  · intro e hset h1 h2
    constructor
    · by_cases h0 : e.year = 9999
      · simp [chDateStep, hset, h0]
      · simp [chDateStep, hset, h0, show e.year < 9999 by omega]
    · by_cases h0 : e.year = 1000
      · simp [chDateStep, hset, h0]
      · simp [chDateStep, hset, h0, show 1000 < e.year by omega]
  · intro n hn
    refine ⟨by simp [chChallengeStep], ?_⟩
    by_cases h0 : n = 0 <;> simp [chChallengeStep, h0] <;> omega
  · intro bound i hb h1 h2
    constructor
    · by_cases hib : i = bound
      · simp [chArrayStep, hib, Nat.mod_self]
      · simp [chArrayStep, hib, Nat.mod_eq_of_lt (by omega : i < bound)]
    · by_cases hi1 : i = 1
      · subst hi1
        have hs : 1 + bound - 2 = bound - 1 := by omega
        simp [chArrayStep, hs, Nat.mod_eq_of_lt (by omega : bound - 1 < bound)]
        omega
      · have hs : i + bound - 2 = (i - 2) + bound := by omega
        simp [chArrayStep, hi1, hs, Nat.add_mod_right,
          Nat.mod_eq_of_lt (by omega : i - 2 < bound)]
        omega

/-- A `chTime` iteration returns `true` only from the minutes field
(`set = false`), leaving the state untouched. -/
lemma chTimeStep_some_true {e e' : TimeEd} {b : Nat}
    (h : chTimeStep e b = (e', some true)) : e.set = false ∧ e' = e := by
  unfold chTimeStep at h
  split_ifs at h with h1 h2 h3 h4 <;> simp_all

/-- A `chDate` iteration returns `true` only from the year field
(`set = 2`), leaving the state untouched. -/
lemma chDateStep_some_true {e e' : DateEd} {b : Nat}
    (h : chDateStep e b = (e', some true)) : e.set = 2 ∧ e' = e := by
  unfold chDateStep at h
  split_ifs at h with h1 h2 h3 h4 <;> simp_all

/-- A whole `chTime` session that ends in `return true` ends with the
last field (minutes) active. -/
lemma runEditor_time_confirm_last :
    ∀ (bs : List Nat) (s : TimeEd), (runEditor chTimeStep s bs).2 = some true →
      (runEditor chTimeStep s bs).1.set = false := by
  intro bs
  induction bs with
  | nil => intro s h; simp [runEditor] at h
  | cons b bs ih =>
    intro s h
    rcases hstep : chTimeStep s b with ⟨s', o⟩
    rcases o with _ | r
    · have he : runEditor chTimeStep s (b :: bs) = runEditor chTimeStep s' bs := by
        simp [runEditor, hstep]
      rw [he] at h ⊢
      exact ih s' h
    · have he : runEditor chTimeStep s (b :: bs) = (s', some r) := by
        simp [runEditor, hstep]
      rw [he] at h ⊢
      obtain rfl : r = true := by simpa using h
      obtain ⟨hset, rfl⟩ := chTimeStep_some_true hstep
      simpa using hset

/-- A whole `chDate` session that ends in `return true` ends with the
last field (year) active. -/
lemma runEditor_date_confirm_last :
    ∀ (bs : List Nat) (s : DateEd), (runEditor chDateStep s bs).2 = some true →
      (runEditor chDateStep s bs).1.set = 2 := by
  intro bs
  induction bs with
  | nil => intro s h; simp [runEditor] at h
  | cons b bs ih =>
    intro s h
    rcases hstep : chDateStep s b with ⟨s', o⟩
    rcases o with _ | r
    · have he : runEditor chDateStep s (b :: bs) = runEditor chDateStep s' bs := by
        simp [runEditor, hstep]
      rw [he] at h ⊢
      exact ih s' h
    · have he : runEditor chDateStep s (b :: bs) = (s', some r) := by
        simp [runEditor, hstep]
      rw [he] at h ⊢
      obtain rfl : r = true := by simpa using h
      obtain ⟨hset, rfl⟩ := chDateStep_some_true hstep
      simpa using hset

/-- A `chMinsSecs` iteration returns `true` only from the seconds
field (`set = false`), leaving the state untouched. -/
lemma chMinsSecsStep_some_true {e e' : MinsSecsEd} {b : Nat}
    (h : chMinsSecsStep e b = (e', some true)) : e.set = false ∧ e' = e := by
  unfold chMinsSecsStep at h
  split_ifs at h with h1 h2 h3 h4 <;> simp_all

/-- A whole `chMinsSecs` session that ends in `return true` ends with
the last field (seconds) active. -/
lemma runEditor_minssecs_confirm_last :
    ∀ (bs : List Nat) (s : MinsSecsEd),
      (runEditor chMinsSecsStep s bs).2 = some true →
      (runEditor chMinsSecsStep s bs).1.set = false := by
  intro bs
  induction bs with
  | nil => intro s h; simp [runEditor] at h
  | cons b bs ih =>
    intro s h
    rcases hstep : chMinsSecsStep s b with ⟨s', o⟩
    rcases o with _ | r
    · have he : runEditor chMinsSecsStep s (b :: bs) =
          runEditor chMinsSecsStep s' bs := by
        simp [runEditor, hstep]
      rw [he] at h ⊢
      exact ih s' h
    · have he : runEditor chMinsSecsStep s (b :: bs) = (s', some r) := by
        simp [runEditor, hstep]
      rw [he] at h ⊢
      obtain rfl : r = true := by simpa using h
      obtain ⟨hset, rfl⟩ := chMinsSecsStep_some_true hstep
      simpa using hset

/-- C6: For every edit session — time, date, snooze duration,
challenge counter and enumerated index — pressing Confirm returns true
exactly when the active field is the last field of the session (so it
happens at most once, ending the session; for the single-field
`chChallenge` and `chArray` editors the active field is always the
last one, so Confirm always saves); pressing Confirm on any earlier
field advances the active field index by one without ending the
session; pressing Cancel returns false immediately from any field. -/
theorem editor_confirm_cancel :
    (∀ e : TimeEd, ((chTimeStep e 1).2 = some true ↔ e.set = false)) ∧
    (∀ e : TimeEd, e.set = true →
      chTimeStep e 1 = (⟨e.hrs, e.mins, false⟩, none)) ∧
    (∀ e : TimeEd, chTimeStep e 2 = (e, some false)) ∧
    (∀ e : DateEd, ((chDateStep e 1).2 = some true ↔ e.set = 2)) ∧
    (∀ e : DateEd, e.set ≠ 2 →
      chDateStep e 1 = ({ e with set := e.set + 1 }, none)) ∧
    (∀ e : DateEd, chDateStep e 2 = (e, some false)) ∧
    (∀ (s : TimeEd) (bs : List Nat),
      (runEditor chTimeStep s bs).2 = some true →
      (runEditor chTimeStep s bs).1.set = false) ∧
    (∀ (s : DateEd) (bs : List Nat),
      (runEditor chDateStep s bs).2 = some true →
      (runEditor chDateStep s bs).1.set = 2) ∧
    (∀ e : MinsSecsEd, ((chMinsSecsStep e 1).2 = some true ↔
      e.set = false)) ∧
    (∀ e : MinsSecsEd, e.set = true →
      chMinsSecsStep e 1 = (⟨e.mins, e.secs, false⟩, none)) ∧
    (∀ e : MinsSecsEd, chMinsSecsStep e 2 = (e, some false)) ∧
    (∀ (s : MinsSecsEd) (bs : List Nat),
      (runEditor chMinsSecsStep s bs).2 = some true →
      (runEditor chMinsSecsStep s bs).1.set = false) ∧
    (∀ n : Nat, chChallengeStep n 1 = (n, some true)) ∧
    (∀ n : Nat, chChallengeStep n 2 = (n, some false)) ∧
    (∀ bound i : Nat, chArrayStep bound i 1 = (i, some true)) ∧
    (∀ bound i : Nat, chArrayStep bound i 2 = (i, some false)) := by
  refine ⟨?_, ?_, ?_, ?_, ?_, ?_, ?_, ?_, ?_, ?_, ?_, ?_, ?_, ?_, ?_, ?_⟩
  · intro e
    rcases hset : e.set <;> simp [chTimeStep, hset]
  · intro e hset
    simp [chTimeStep, hset]
  · intro e
    simp [chTimeStep]
  · intro e
    by_cases hset : e.set = 2 <;> simp [chDateStep, hset]
  · intro e hset
    simp [chDateStep, hset]
  · intro e
    simp [chDateStep]
  · intro s bs
    exact runEditor_time_confirm_last bs s
  · intro s bs
    exact runEditor_date_confirm_last bs s
  · intro e
    rcases hset : e.set <;> simp [chMinsSecsStep, hset]
  · intro e hset
    simp [chMinsSecsStep, hset]
  · intro e
    simp [chMinsSecsStep]
  · intro s bs
    exact runEditor_minssecs_confirm_last bs s
  · intro n
    simp [chChallengeStep]
  · intro n
    simp [chChallengeStep]
  · intro bound i
    simp [chArrayStep]
  · intro bound i
    simp [chArrayStep]

/-- Witness for C6 at concrete inputs: confirm from the minutes field
of `12:30` saves; confirm from the hours field advances to minutes;
cancel discards from the day field of a date session; the snooze
editor advances from minutes and saves from seconds; the single-field
challenge and weekday editors save and discard immediately. -/
theorem editor_confirm_cancel_witness :
    (chTimeStep ⟨12, 30, false⟩ 1).2 = some true ∧
    chTimeStep ⟨12, 30, true⟩ 1 = (⟨12, 30, false⟩, none) ∧
    chDateStep ⟨5, 6, 2024, 0⟩ 1 = (⟨5, 6, 2024, 1⟩, none) ∧
    chDateStep ⟨5, 6, 2024, 1⟩ 2 = (⟨5, 6, 2024, 1⟩, some false) ∧
    (runEditor chTimeStep ⟨12, 30, true⟩ [1, 1]).1.set = false ∧
    chMinsSecsStep ⟨5, 30, true⟩ 1 = (⟨5, 30, false⟩, none) ∧
    (chMinsSecsStep ⟨5, 30, false⟩ 1).2 = some true ∧
    chMinsSecsStep ⟨5, 30, true⟩ 2 = (⟨5, 30, true⟩, some false) ∧
    (runEditor chMinsSecsStep ⟨5, 30, true⟩ [1, 1]).1.set = false ∧
    chChallengeStep 10 1 = (10, some true) ∧
    chChallengeStep 10 2 = (10, some false) ∧
    chArrayStep 7 3 1 = (3, some true) ∧
    chArrayStep 7 3 2 = (3, some false) := by
  obtain ⟨h1, h2, _, _, h5, h6, h7, _, h9, h10, h11, h12, h13, h14,
    h15, h16⟩ := editor_confirm_cancel
  exact ⟨(h1 ⟨12, 30, false⟩).mpr rfl,
         h2 ⟨12, 30, true⟩ rfl,
         h5 ⟨5, 6, 2024, 0⟩ (by norm_num),
         h6 ⟨5, 6, 2024, 1⟩,
         h7 ⟨12, 30, true⟩ [1, 1] (by decide),
         h10 ⟨5, 30, true⟩ rfl,
         (h9 ⟨5, 30, false⟩).mpr rfl,
         h11 ⟨5, 30, true⟩,
         h12 ⟨5, 30, true⟩ [1, 1] (by decide),
         h13 10, h14 10, h15 7 3, h16 7 3⟩

/-- C7: In every edit session, an Up or Down press mutates only the
currently active field: all non-active fields and the active field
index are unchanged, and the press does not end the session. In
particular `chTime` at hour 23, minute 0 with the hour field active
maps Up to hour 0 with the minute unchanged and hours still active. -/
theorem editor_updown_frame :
    (∀ (e : TimeEd) (b : Nat), b = 3 ∨ b = 4 →
      (chTimeStep e b).1.set = e.set ∧ (chTimeStep e b).2 = none ∧
      (e.set = true → (chTimeStep e b).1.mins = e.mins) ∧
      (e.set = false → (chTimeStep e b).1.hrs = e.hrs)) ∧
    (∀ (e : MinsSecsEd) (b : Nat), b = 3 ∨ b = 4 →
      (chMinsSecsStep e b).1.set = e.set ∧ (chMinsSecsStep e b).2 = none ∧
      (e.set = true → (chMinsSecsStep e b).1.secs = e.secs) ∧
      (e.set = false → (chMinsSecsStep e b).1.mins = e.mins)) ∧
    (∀ (e : DateEd) (b : Nat), b = 3 ∨ b = 4 →
      (chDateStep e b).1.set = e.set ∧ (chDateStep e b).2 = none ∧
      (e.set = 0 → (chDateStep e b).1.month = e.month ∧
        (chDateStep e b).1.year = e.year) ∧
      (e.set = 1 → (chDateStep e b).1.day = e.day ∧
        (chDateStep e b).1.year = e.year) ∧
      (e.set ≠ 0 → e.set ≠ 1 → (chDateStep e b).1.day = e.day ∧
        (chDateStep e b).1.month = e.month)) ∧
    (∀ (n b : Nat), b = 3 ∨ b = 4 → (chChallengeStep n b).2 = none) ∧
    (∀ (bound i b : Nat), b = 3 ∨ b = 4 → (chArrayStep bound i b).2 = none) ∧
    chTimeStep ⟨23, 0, true⟩ 3 = (⟨0, 0, true⟩, none) := by
  refine ⟨?_, ?_, ?_, ?_, ?_, by decide⟩
  · rintro e b (rfl | rfl) <;>
      rcases hset : e.set <;> simp [chTimeStep, hset]
  · rintro e b (rfl | rfl) <;>
      rcases hset : e.set <;> simp [chMinsSecsStep, hset]
  · rintro e b (rfl | rfl) <;>
    · refine ⟨?_, ?_, ?_, ?_, ?_⟩ <;>
      · intros
        rcases e with ⟨d, mo, y, st⟩
        rcases st with _ | st <;> [skip; rcases st with _ | st] <;>
          simp_all [chDateStep] <;> split_ifs <;> simp
  · rintro n b (rfl | rfl) <;> simp [chChallengeStep]
  · rintro bound i b (rfl | rfl) <;> simp [chArrayStep]

/-- Witness for C7: the spec's scenario, hour 23 minute 0 with hours
active, Up press. -/
theorem editor_updown_frame_witness :
    (chTimeStep ⟨23, 0, true⟩ 3).1.set = true ∧
    (chTimeStep ⟨23, 0, true⟩ 3).1.mins = 0 ∧
    chTimeStep ⟨23, 0, true⟩ 3 = (⟨0, 0, true⟩, none) := by
  obtain ⟨h1, _, _, _, _, h6⟩ := editor_updown_frame
  exact ⟨(h1 ⟨23, 0, true⟩ 3 (Or.inl rfl)).1,
         (h1 ⟨23, 0, true⟩ 3 (Or.inl rfl)).2.2.1 rfl,
         h6⟩

/-! ## Theorems: alarm challenge loop -/

/-- Reachability invariant of the challenge loop: the target stays in
1–4; while the loop runs the score is 0 when the challenge is none and
strictly below the challenge otherwise; on exit the score is at most
the challenge. -/
def challengeInv (chal : Nat) (s : AlarmSt) : Prop :=
  1 ≤ s.num ∧ s.num ≤ 4 ∧
  (s.done = false → (chal = 0 → s.points = 0) ∧ (0 < chal → s.points < chal)) ∧
  (s.done = true → s.points ≤ chal)

lemma challengeInv_init (chal r0 : Nat) (hc : 0 < chal ∨ chal = 0) :
    challengeInv chal (challengeInit r0) := by
  refine ⟨by simp [challengeInit], by simp [challengeInit]; omega, ?_, ?_⟩ <;>
    simp [challengeInit] <;> omega

lemma challengeInv_step (chal : Nat) (hc : chal ≤ 99) (s : AlarmSt)
    (p r : Nat) (hs : challengeInv chal s) :
    challengeInv chal (challengeStep chal s p r) := by
  obtain ⟨h1, h2, h3, h4⟩ := hs
  unfold challengeStep challengeInv
  split_ifs <;>
    refine ⟨?_, ?_, ?_, ?_⟩ <;>
    simp_all <;>
    omega

lemma challengeInv_fold (chal : Nat) (hc : chal ≤ 99)
    (evs : List (Nat × Nat)) :
    ∀ s : AlarmSt, challengeInv chal s →
      challengeInv chal
        (evs.foldl (fun s e => challengeStep chal s e.1 e.2) s) := by
  induction evs with
  | nil => intro s hs; simpa using hs
  | cons e t ih =>
    intro s hs
    simpa using ih _ (challengeInv_step chal hc s e.1 e.2 hs)

lemma challengeInv_run (chal r0 : Nat) (evs : List (Nat × Nat))
    (hc : chal ≤ 99) : challengeInv chal (challengeRun chal r0 evs) :=
  challengeInv_fold chal hc evs _ (challengeInv_init chal r0 (by omega))

/-- C2: For every reachable state of the alarm challenge loop, the loop
exits into the disabled announcement if and only if either the
challenge target equals 0 and any button press is received, or a
correct answer (press equal to the displayed target) raises the score
so that it equals the challenge target; no other event ends the
challenge. -/
theorem soundAlarm_exit_iff (chal r0 p r : Nat) (evs : List (Nat × Nat))
    (hc : chal ≤ 99)
    (hs : (challengeRun chal r0 evs).done = false) :
    (challengeStep chal (challengeRun chal r0 evs) p r).done = true ↔
      ((chal = 0 ∧ p ≠ 0) ∨
       (p = (challengeRun chal r0 evs).num ∧
        (challengeRun chal r0 evs).points + 1 = chal)) := by
  obtain ⟨h1, h2, h3, h4⟩ := challengeInv_run chal r0 evs hc
  revert hs
  generalize challengeRun chal r0 evs = s at h1 h2 h3 h4 ⊢
  intro hs
  unfold challengeStep
  split_ifs <;> simp_all <;> omega

/-- Witness for C2 with challenge 1: from the fresh entry state with
target 1 and score 0, the correct press 1 ends the challenge. -/
theorem soundAlarm_exit_iff_witness :
    (challengeStep 1 (challengeRun 1 0 []) 1 0).done = true :=
  (soundAlarm_exit_iff 1 0 1 0 [] (by norm_num) (by rfl)).mpr
    (Or.inr ⟨by rfl, by rfl⟩)

/-- C3: Throughout any alarm challenge session the score is an
invariant of every step: it is never negative — an incorrect answer
when the score is 0 leaves it at 0 — and it never exceeds the
challenge target, for every sequence of answers. (Scores are naturals
here because the source stores them in a byte; the zero-floor clause
is the source's `if (points != 0) points--`.) -/
theorem soundAlarm_score_invariant (chal r0 : Nat) (evs : List (Nat × Nat))
    (hc : chal ≤ 99) :
    (challengeRun chal r0 evs).points ≤ chal ∧
    (∀ (s : AlarmSt) (p r : Nat), s.done = false → p ≠ 0 → chal ≠ 0 →
      p ≠ s.num → s.points = 0 → (challengeStep chal s p r).points = 0) := by
  constructor
  · obtain ⟨h1, h2, h3, h4⟩ := challengeInv_run chal r0 evs hc
    rcases hdone : (challengeRun chal r0 evs).done
    · have := h3 hdone
      omega
    · exact h4 hdone
  · intro s p r hdone hp hchal hnum hpts
    simp [challengeStep, hdone, hp, hchal, hnum, hpts]

/-- Witness for C3 with challenge 2: a wrong first answer leaves the
score at 0 (not −1), and a run is bounded by the challenge. -/
theorem soundAlarm_score_invariant_witness :
    (challengeRun 2 0 [(3, 0)]).points ≤ 2 ∧
    (challengeStep 2 ⟨0, 1, false⟩ 3 0).points = 0 := by
  obtain ⟨ha, hb⟩ := soundAlarm_score_invariant 2 0 [(3, 0)] (by norm_num)
  exact ⟨ha, hb ⟨0, 1, false⟩ 3 0 rfl (by norm_num) (by norm_num)
    (by norm_num) rfl⟩

/-! ## Theorems: button sampler -/

/-- While the latch is set and some button line stays active, every
`getPressed` call returns 0 and the sampler state does not change. -/
lemma getPressedRun_latched (s : PressSt) (hs : s.lastPressed ≠ 0) :
    ∀ calls : List (Nat × Nat), (∀ e ∈ calls, 0 < e.2) →
      getPressedRun s calls = (s, List.replicate calls.length 0) := by
  intro calls
  induction calls with
  | nil => intro; simp [getPressedRun]
  | cons e t ih =>
    intro hall
    have hstep : getPressedStep s e.1 e.2 = (s, 0) := by
      have he : 0 < e.2 := hall e (by simp)
      unfold getPressedStep
      rw [if_neg (by simp [hs]), if_neg (by omega)]
    simp [getPressedRun, hstep, ih fun x hx => hall x (by simp [hx]),
      List.replicate_succ]

/-- C4 counterexample: the claim "a press is reported only after the
button line has been in its new (pressed) state for at least 100 ms"
is false of `getPressed`. In any run from boot, consider a call at
time `t'` that observes no button followed immediately by a call at
time `t` that observes a button: the line has then been pressed for at
most `t - t'` ms, so the claim forces `100 ≤ t - t'` whenever the
second call reports the press. The trace below (release observed at
999 ms, press observed and reported at 1000 ms) refutes this: the
debounce window of `getPressed` is measured from the last
press/release event (`pressTimer`), not from the line's entry into the
pressed state. -/
theorem getPressed_min_duration_cex :
    ¬ (∀ (pre : List (Nat × Nat)) (t' t c : Nat),
        (getPressedRun pressInit (pre ++ [(t', 0), (t, c)])).2.getLast? =
          some c →
        c ≠ 0 → 100 ≤ t - t') := by
  intro h
  have := h [] 999 1000 1 (by decide) (by decide)
  omega

/-- C4 (amended): a press is reported only when the internal latch is
clear and at least 100 ms have elapsed since the last reported press
or registered release — not since the line entered the pressed state;
each continuous physical press is reported at most once (after a
report every call that still observes a button down returns 0 and
leaves the sampler unchanged), and the latch clears only at a call
observing no button at least 100 ms after the last event. -/
theorem getPressed_debounce (s : PressSt) (t cur : Nat)
    (calls : List (Nat × Nat)) (hcur : (getPressedStep s t cur).2 ≠ 0) :
    (s.lastPressed = 0 ∧ 100 ≤ t - s.pressTimer ∧
      (getPressedStep s t cur).2 = cur ∧
      (getPressedStep s t cur).1 = ⟨cur, t⟩) ∧
    ((∀ e ∈ calls, 0 < e.2) →
      (getPressedRun (getPressedStep s t cur).1 calls).2 =
        List.replicate calls.length 0) ∧
    (∀ (s' : PressSt) (t' c' : Nat), s'.lastPressed ≠ 0 →
      ((getPressedStep s' t' c').1.lastPressed = 0 ↔
        (c' = 0 ∧ 100 ≤ t' - s'.pressTimer))) := by
  have hrep : s.lastPressed = 0 ∧ 100 ≤ t - s.pressTimer ∧
      (getPressedStep s t cur).2 = cur ∧
      (getPressedStep s t cur).1 = ⟨cur, t⟩ := by
    unfold getPressedStep at hcur ⊢
    split_ifs at hcur with h1 h2 <;> simp_all
  refine ⟨hrep, ?_, ?_⟩
  · intro hall
    have hcur' : cur ≠ 0 := fun hc => hcur (by rw [hrep.2.2.1, hc])
    have hne : (getPressedStep s t cur).1.lastPressed ≠ 0 := by
      rw [hrep.2.2.2]
      exact hcur'
    rw [getPressedRun_latched _ hne calls hall]
  · intro s' t' c' hs'
    unfold getPressedStep
    split_ifs with h1 h2 <;> simp_all <;> omega

/-- Witness for C4 (amended) at `pressInit`, a press observed at
t = 100 ms: the press is reported once and a second call at t = 150 ms
still observing the button returns 0. -/
theorem getPressed_debounce_witness :
    (getPressedStep pressInit 100 1).2 = 1 ∧
    (getPressedRun (getPressedStep pressInit 100 1).1 [(150, 1)]).2 = [0] := by
  obtain ⟨h1, h2, _⟩ := getPressed_debounce pressInit 100 1 [(150, 1)] (by decide)
  exact ⟨by rw [h1.2.2.1], (h2 (by decide)).trans (by rfl)⟩

/-! ## Theorems: cancel / persistence -/

/-- A session whose editor run ends in `return false` commits nothing:
the persisted state is returned untouched. -/
lemma edSegment_cancel {σ : Type} (step : σ → Nat → σ × EdOut)
    (init : SysState → σ) (commit : SysState → σ → SysState)
    (g : SysState) (bs : List Nat)
    (h : (runEditor step (init g) bs).2 = some false) :
    edSegment step init commit g bs = (g, false) := by
  simp [edSegment, h]

/-- C5: Cancelling an edit session is atomic with respect to persisted
state: for every edit session of the main loop (time, date, weekday,
alarm time, challenge, snooze, state) and every sequence of field
mutations followed by Cancel, the editor returns false and the
persisted settings (RAM globals, EEPROM, RTC) after the session equal
their values before the session; a cancelled session also aborts the
remainder of its flow, leaving exactly the previously committed
sessions applied. -/
theorem cancel_discards_edits :
    (∀ (g : SysState) (bs : List Nat),
      (runEditor chTimeStep ⟨g.rtc.hour, g.rtc.min, true⟩ bs).2 =
        some false → timeSeg g bs = (g, false)) ∧
    (∀ (g : SysState) (bs : List Nat),
      (runEditor chDateStep ⟨g.rtc.date, g.rtc.mon, g.rtc.year, 0⟩ bs).2 =
        some false → dateSeg g bs = (g, false)) ∧
    (∀ (g : SysState) (bs : List Nat),
      (runEditor (chArrayStep 7) g.rtc.dow bs).2 = some false →
      dowSeg g bs = (g, false)) ∧
    (∀ (g : SysState) (bs : List Nat),
      (runEditor chTimeStep ⟨g.alarmHrs, g.alarmMins, true⟩ bs).2 =
        some false → alarmTimeSeg g bs = (g, false)) ∧
    (∀ (g : SysState) (bs : List Nat),
      (runEditor chChallengeStep g.alarmChallenge bs).2 = some false →
      challengeSeg g bs = (g, false)) ∧
    (∀ (g : SysState) (bs : List Nat),
      (runEditor chMinsSecsStep
        ⟨g.alarmSnoozeMins, g.alarmSnoozeSecs, true⟩ bs).2 = some false →
      snoozeSeg g bs = (g, false)) ∧
    (∀ (g : SysState) (bs : List Nat),
      (runEditor (chArrayStep 2) (if g.alarmState then 2 else 1) bs).2 =
        some false → stateSeg g bs = (g, false)) ∧
    (∀ (g : SysState) (bs1 bs2 bs3 bs4 : List Nat),
      (runEditor chTimeStep ⟨g.alarmHrs, g.alarmMins, true⟩ bs1).2 =
        some false → alarmFlow g bs1 bs2 bs3 bs4 = g) ∧
    (∀ (g : SysState) (e : TimeEd) (bs1 bs2 bs3 bs4 : List Nat),
      runEditor chTimeStep ⟨g.alarmHrs, g.alarmMins, true⟩ bs1 =
        (e, some true) →
      (runEditor chChallengeStep (commitAlarmTime g e).alarmChallenge
        bs2).2 = some false →
      alarmFlow g bs1 bs2 bs3 bs4 = commitAlarmTime g e) ∧
    (∀ (g : SysState) (bs1 bs2 bs3 : List Nat),
      (runEditor chTimeStep ⟨g.rtc.hour, g.rtc.min, true⟩ bs1).2 =
        some false → timeDateFlow g bs1 bs2 bs3 = g) := by
  refine ⟨?_, ?_, ?_, ?_, ?_, ?_, ?_, ?_, ?_, ?_⟩
  · intro g bs h
    exact edSegment_cancel _ _ _ _ _ h
  · intro g bs h
    exact edSegment_cancel _ _ _ _ _ h
  · intro g bs h
    exact edSegment_cancel _ _ _ _ _ h
  · intro g bs h
    exact edSegment_cancel _ _ _ _ _ h
  · intro g bs h
    exact edSegment_cancel _ _ _ _ _ h
  · intro g bs h
    exact edSegment_cancel _ _ _ _ _ h
  · intro g bs h
    exact edSegment_cancel _ _ _ _ _ h
  · intro g bs1 bs2 bs3 bs4 h
    have hseg : alarmTimeSeg g bs1 = (g, false) :=
      edSegment_cancel _ _ _ _ _ h
    simp [alarmFlow, hseg]
  · intro g e bs1 bs2 bs3 bs4 h1 h2
    have hseg : alarmTimeSeg g bs1 = (commitAlarmTime g e, true) := by
      simp [alarmTimeSeg, edSegment, h1]
    have hch : challengeSeg (commitAlarmTime g e) bs2 =
        (commitAlarmTime g e, false) :=
      edSegment_cancel _ _ _ _ _ h2
    simp [alarmFlow, hseg, hch]
  · intro g bs1 bs2 bs3 h
    have hseg : timeSeg g bs1 = (g, false) :=
      edSegment_cancel _ _ _ _ _ h
    simp [timeDateFlow, hseg]

/-- Witness for C5: on a concrete persisted state, an alarm-time
session that increments the hour and then cancels leaves the whole
persisted state (globals, EEPROM, RTC) exactly as before. -/
theorem cancel_discards_edits_witness :
    alarmFlow
      ⟨6, 30, 10, 5, 0, true, ⟨6, 30, 10, 5, 0, 1⟩,
        ⟨12, 0, 0, 1, 1, 2024, 1⟩⟩ [3, 2] [] [] [] =
      ⟨6, 30, 10, 5, 0, true, ⟨6, 30, 10, 5, 0, 1⟩,
        ⟨12, 0, 0, 1, 1, 2024, 1⟩⟩ :=
  cancel_discards_edits.2.2.2.2.2.2.2.1 _ [3, 2] [] [] [] (by decide)

/-! ## Theorems: brightness setting -/

/-- C9 counterexample: the brightness-setting invariant 0 ≤ b ≤ 17 is
not preserved by every write: the alarm / snooze-alert backlight
override (`if (brightness == 0) {brightness = 255;}` in `soundAlarm`)
writes the sentinel 255 when brightness is 0 (automatic), so during an
alarm session the variable holds 255 > 17. -/
theorem brightness_override_cex :
    brightOverrideEntry 0 = 255 ∧ ¬ brightOverrideEntry 0 ≤ 17 := by
  decide

/-- C9 (amended): increment, decrement and the EEPROM load always
produce a brightness in [0,17]; the alarm / snooze-alert override is
the one exception: starting from a value in range it stays in range
precisely when the value is nonzero, while 0 (automatic) is replaced
by the out-of-range sentinel 255 for the duration of the session; the
matching restore maps the sentinel back to 0 and leaves manual values
unchanged, so each override/restore pair re-establishes the range. -/
theorem brightness_ops_range (b v : Nat) (hb : b ≤ 17) :
    brightInc b ≤ 17 ∧ brightDec b ≤ 17 ∧ brightLoad v ≤ 17 ∧
    (brightOverrideEntry b ≤ 17 ↔ b ≠ 0) ∧
    brightOverrideEntry 0 = 255 ∧
    brightOverrideExit (brightOverrideEntry b) = b := by
  unfold brightInc brightDec brightLoad brightOverrideEntry brightOverrideExit
  split_ifs <;> simp_all <;> omega

/-- Witness for C9 (amended) at brightness 17 and a stored byte 200:
increment wraps into range, the corrupt load falls back to 0, and the
override/restore pair is the identity. -/
theorem brightness_ops_range_witness :
    brightInc 17 ≤ 17 ∧ brightLoad 200 ≤ 17 ∧
    brightOverrideExit (brightOverrideEntry 17) = 17 := by
  obtain ⟨h1, _, h3, _, _, h6⟩ := brightness_ops_range 17 200 (by norm_num)
  exact ⟨h1, h3, h6⟩

/-! ## Theorems: buffered display sink -/

/-- C10: The buffered display sink never writes outside its grid: a
`setCursor` with a column ≥ cols or a row ≥ rows leaves the hardware
cursor and the buffer index unchanged; a `print` whose string would
extend past the end of the buffer performs no hardware write and
leaves the buffer unchanged; and a `print` whose text equals the
buffer contents at the cursor is likewise suppressed. -/
theorem bufferedLCD_no_out_of_grid (l : LCDBuf) (x y : Nat)
    (s : List Char) :
    ((l.maxX ≤ x ∨ l.maxY ≤ y) → l.setCursor x y = l) ∧
    (l.maxX * l.maxY < l.cursor + s.length → l.printStr s = (l, false)) ∧
    ((l.buffer.drop l.cursor).take s.length = s →
      l.printStr s = (l, false)) := by
    refine ⟨?_, ?_, ?_⟩
    · intro h
      unfold LCDBuf.setCursor
      rw [if_neg (by omega)]
    · intro h
      unfold LCDBuf.printStr
      rw [if_neg (by omega)]
    · intro h
      unfold LCDBuf.printStr
      rw [if_neg (by simp [h])]

/-- Witness for C10 on a 4-character 2×2 display: an out-of-range
`setCursor`, an overlong `print` and an identical `print` are all
no-ops. -/
theorem bufferedLCD_no_out_of_grid_witness :
    (LCDBuf.mk 2 2 ['a', 'b', 'c', 'd'] 1 1 0).setCursor 2 0 =
      LCDBuf.mk 2 2 ['a', 'b', 'c', 'd'] 1 1 0 ∧
    (LCDBuf.mk 2 2 ['a', 'b', 'c', 'd'] 1 1 0).printStr
      ['x', 'y', 'z', 'w'] = (LCDBuf.mk 2 2 ['a', 'b', 'c', 'd'] 1 1 0,
        false) ∧
    (LCDBuf.mk 2 2 ['a', 'b', 'c', 'd'] 1 1 0).printStr ['b', 'c'] =
      (LCDBuf.mk 2 2 ['a', 'b', 'c', 'd'] 1 1 0, false) := by
  obtain ⟨h1, h2, h3⟩ :=
    bufferedLCD_no_out_of_grid (LCDBuf.mk 2 2 ['a', 'b', 'c', 'd'] 1 1 0)
      2 0 ['x', 'y', 'z', 'w']
  obtain ⟨_, _, h3'⟩ :=
    bufferedLCD_no_out_of_grid (LCDBuf.mk 2 2 ['a', 'b', 'c', 'd'] 1 1 0)
      2 0 ['b', 'c']
  exact ⟨h1 (by norm_num), h2 (by norm_num), h3' (by decide)⟩

/-! ## Theorems: brightness curve -/

/-- C8: `brightCurve` returns 255 for sensor values ≥ 729, returns 1
for values ≤ 110, and otherwise returns 100/(4 − 0.005·x) − 28, whose
value on that middle range already lies inside [1,255] (so clamping to
[1,255] is the identity there); in particular `brightCurve 1023 = 255`
and `brightCurve 50 = 1`, and `brightCurve 400` matches the reciprocal
formula exactly (the rational value of the formula at 400 is the
integer 22). -/
theorem brightCurve_spec (s : Int) (h1 : 110 < s) (h2 : s < 729) :
    brightCurve 1023 = 255 ∧ brightCurve 50 = 1 ∧ brightCurve 400 = 22 ∧
    ((22 : ℚ) = 100 / (4 - 0.005 * 400) - 28) ∧
    (∀ x : Int, 729 ≤ x → brightCurve x = 255) ∧
    (∀ x : Int, x ≤ 110 → brightCurve x = 1) ∧
    brightCurve s = (⌊(100 : ℚ) / (4 - 0.005 * (s : ℚ)) - 28⌋).toNat ∧
    1 ≤ brightCurve s ∧ brightCurve s ≤ 255 := by
  have hsq1 : (111 : ℚ) ≤ (s : ℚ) := by exact_mod_cast h1
  have hsq2 : ((s : ℚ)) ≤ 728 := by exact_mod_cast Int.lt_add_one_iff.mp h2
  have hq : (0 : ℚ) < 4 - 0.005 * (s : ℚ) := by nlinarith
  have hlo : (29 : ℚ) ≤ 100 / (4 - 0.005 * (s : ℚ)) := by
    rw [le_div_iff hq]
    nlinarith
  have hhi : (100 : ℚ) / (4 - 0.005 * (s : ℚ)) < 284 := by
    rw [div_lt_iff hq]
    nlinarith
  have hf1 : 1 ≤ ⌊(100 : ℚ) / (4 - 0.005 * (s : ℚ)) - 28⌋ := by
    apply Int.le_floor.mpr
    push_cast
    linarith
  have hf2 : ⌊(100 : ℚ) / (4 - 0.005 * (s : ℚ)) - 28⌋ < 256 := by
    apply Int.floor_lt.mpr
    push_cast
    linarith
  have hmid : brightCurve s =
      (⌊(100 : ℚ) / (4 - 0.005 * (s : ℚ)) - 28⌋).toNat := by
    unfold brightCurve
    rw [if_neg (by omega), if_neg (by omega)]
  refine ⟨by norm_num [brightCurve], by norm_num [brightCurve], ?_,
    by norm_num, ?_, ?_, hmid, ?_, ?_⟩
  · norm_num [brightCurve]
    rfl
  · intro x hx
    unfold brightCurve
    rw [if_pos hx]
  · intro x hx
    unfold brightCurve
    rw [if_neg (by omega), if_pos hx]
  · rw [hmid]
    omega
  · rw [hmid]
    omega

/-- Witness for C8 at sensor value 400 inside the middle branch. -/
theorem brightCurve_spec_witness :
    brightCurve 1023 = 255 ∧ brightCurve 50 = 1 ∧ brightCurve 400 = 22 ∧
    1 ≤ brightCurve 400 ∧ brightCurve 400 ≤ 255 := by
  obtain ⟨w1, w2, w3, _, _, _, _, w8, w9⟩ :=
    brightCurve_spec 400 (by norm_num) (by norm_num)
  exact ⟨w1, w2, w3, w8, w9⟩

/-- Witness for C1 at the boundary values: hour 23 wraps to 0, hour 0
wraps down to 23, day 31 wraps to 1 (in February), year 9999
saturates, challenge 99 wraps to 0, and index 7 of 7 wraps to 1. -/
theorem editor_wrap_rules_witness :
    (chTimeStep ⟨23, 10, true⟩ 3).1.hrs = 0 ∧
    (chTimeStep ⟨0, 10, true⟩ 4).1.hrs = 23 ∧
    (chDateStep ⟨31, 2, 2024, 0⟩ 3).1.day = 1 ∧
    (chDateStep ⟨3, 5, 9999, 2⟩ 3).1.year = 9999 ∧
    (chChallengeStep 99 3).1 = 0 ∧
    (chArrayStep 7 7 3).1 = 1 := by
  obtain ⟨h1, _, _, _, h5, _, h7, h8, h9⟩ := editor_wrap_rules
  refine ⟨?_, ?_, ?_, ?_, ?_, ?_⟩
  · simpa using (h1 ⟨23, 10, true⟩ rfl (by norm_num)).1
  · simpa using (h1 ⟨0, 10, true⟩ rfl (by norm_num)).2
  · simpa using (h5 ⟨31, 2, 2024, 0⟩ rfl (by norm_num) (by norm_num)).1
  · simpa using (h7 ⟨3, 5, 9999, 2⟩ rfl (by norm_num) (by norm_num)).1
  · simpa using (h8 99 (by norm_num)).1
  · simpa using (h9 7 7 (by norm_num) (by norm_num) (by norm_num)).1
